import Mathlib

/-!
Shallow embedding of the nois drand oracle (`contracts/nois-oracle/src/contract.rs`)
and the gateway request router (`contracts/nois-gateway/src/request_router.rs`).

Timestamps are modelled as natural numbers counting nanoseconds (mirroring
`cosmwasm_std::Timestamp`).  Byte strings (`HexBinary`) and addresses (`Addr`)
are modelled as `String`.  Storage maps are modelled as functions from keys to
values; the per-round job queue is a `List` (FIFO: enqueue appends at the tail,
dequeue pops the head).
-/

namespace BurnToken

/-- Chain hash of the drand mainnet chain (`DRAND_CHAIN_HASH`), pinned by the
unit tests `commit_to_drand_round_works` in both contracts. -/
def DRAND_CHAIN_HASH : String :=
  "8990e7a9aaed2ffed73dbd7092123d6f289930540d7651336225dc172e51b2ce"

/-- Drand mainnet genesis time (1595431050 s) in nanoseconds. -/
def genesisNanos : Nat := 1595431050000000000

/-- Drand mainnet round length (30 s) in nanoseconds. -/
def periodNanos : Nat := 30000000000

/-- Modelled from the spec: `round_after` lives in the `drand_common` crate /
`crate::drand` module, which is not under `src/`.  The spec (sections 4.1 and 8)
fixes the behavior: before genesis the result is round 1, and the boundary
vectors `round_for(G) = 2`, `round_for(G + P - 1ns) = 2`, `round_for(G + P) = 3`
are also pinned by the in-repo unit tests (`commit_to_drand_round_works`). -/
def round_after (t : Nat) : Nat :=
  if t < genesisNanos then 1 else (t - genesisNanos) / periodNanos + 2

/-- Embedding of `commit_to_drand_round` (identical in both contracts):
computes the committed round and the canonical source id
`format!("drand:\x7b\x7d:\x7b\x7d", DRAND_CHAIN_HASH, round)`. -/
def commit_to_drand_round (after : Nat) : Nat × String :=
  (round_after after, "drand:" ++ DRAND_CHAIN_HASH ++ ":" ++ toString (round_after after))

/-- Claim C2: `commit_to_drand_round` is a pure deterministic function of the
timestamp; every timestamp before drand genesis commits to round 1 (including
genesis minus one nanosecond), genesis itself commits to round 2, genesis plus
one period minus one nanosecond still commits to round 2, and genesis plus one
period commits to round 3. -/
theorem C2_round_committer_boundaries :
    (∀ t₁ t₂ : Nat, t₁ = t₂ → commit_to_drand_round t₁ = commit_to_drand_round t₂) ∧
    (∀ t : Nat, t < genesisNanos → (commit_to_drand_round t).1 = 1) ∧
    (commit_to_drand_round (genesisNanos - 1)).1 = 1 ∧
    (commit_to_drand_round genesisNanos).1 = 2 ∧
    (commit_to_drand_round (genesisNanos + periodNanos - 1)).1 = 2 ∧
    (commit_to_drand_round (genesisNanos + periodNanos)).1 = 3 := by
  refine ⟨fun t₁ t₂ h => by rw [h], fun t ht => ?_, ?_, ?_, ?_, ?_⟩
  · simp [commit_to_drand_round, round_after, ht]
  · decide
  · decide
  · decide
  · decide

/-- Witness for C2: the universally quantified conjunct applied at the concrete
timestamp 0 (the UNIX epoch, which is before drand genesis). -/
theorem C2_round_committer_boundaries_witness :
    (0 : Nat) < genesisNanos ∧ (commit_to_drand_round 0).1 = 1 :=
  ⟨by decide, C2_round_committer_boundaries.2.1 0 (by decide)⟩

/-- Claim C3 as stated is false: it asserts the publish time of round `r` is
`G + r·P` and that `round_for` returns the least round whose publish time
strictly exceeds `after`.  At `after = G` the code (pinned by the in-repo test
`commit_to_drand_round_works`) returns round 2, but round 1 already satisfies
`G + 1·P > G`, so the returned round is not the least element of that set. -/
theorem C3_counterexample_publish_time_formula :
    ¬ IsLeast {r : Nat | genesisNanos + r * periodNanos > genesisNanos}
        (commit_to_drand_round genesisNanos).1 := by
  intro h
  have h2 : (commit_to_drand_round genesisNanos).1 = 2 := by decide
  have h1 : (1 : Nat) ∈ {r : Nat | genesisNanos + r * periodNanos > genesisNanos} := by
    simp [Set.mem_setOf_eq, genesisNanos, periodNanos]
  have := h.2 h1
  rw [h2] at this
  omega

/-- Claim C3, amended: the nominal publish time of round `r` is
`G + (r-1)·P` (round 1 is published at genesis), and for `after` at or past
genesis, `commit_to_drand_round` returns the smallest round `r` whose publish
time `G + (r-1)·P` is strictly greater than `after`, paired with the canonical
source id combining the fixed chain hash and `r`. -/
theorem C3_round_committer_least_round (after : Nat) (h : genesisNanos ≤ after) :
    IsLeast {r : Nat | genesisNanos + (r - 1) * periodNanos > after}
      (commit_to_drand_round after).1 ∧
    (commit_to_drand_round after).2 =
      "drand:" ++ DRAND_CHAIN_HASH ++ ":" ++ toString (commit_to_drand_round after).1 := by
  have hnotlt : ¬ after < genesisNanos := not_lt.mpr h
  simp only [genesisNanos, periodNanos] at hnotlt h
  refine ⟨⟨?_, ?_⟩, rfl⟩
  · simp [commit_to_drand_round, round_after, hnotlt, Set.mem_setOf_eq,
      genesisNanos, periodNanos]
    omega
  · intro r hr
    simp [commit_to_drand_round, round_after, hnotlt, Set.mem_setOf_eq,
      genesisNanos, periodNanos] at hr ⊢
    rcases Nat.eq_zero_or_pos r with hr0 | hr0
    · subst hr0; omega
    · rcases Nat.exists_eq_add_of_le hr0 with ⟨k, hk⟩
      subst hk
      simp only [Nat.add_sub_cancel_left] at hr ⊢
      omega

/-- Witness for the amended C3: applied at `after = genesisNanos`. -/
theorem C3_round_committer_least_round_witness :
    genesisNanos ≤ genesisNanos ∧
    (IsLeast {r : Nat | genesisNanos + (r - 1) * periodNanos > genesisNanos}
      (commit_to_drand_round genesisNanos).1 ∧
    (commit_to_drand_round genesisNanos).2 =
      "drand:" ++ DRAND_CHAIN_HASH ++ ":" ++ toString (commit_to_drand_round genesisNanos).1) :=
  ⟨le_refl _, C3_round_committer_least_round genesisNanos (le_refl _)⟩

/-- Embedding of `Config` from the oracle's `crate::state` (fields as used by
`contract.rs`: `min_round`, `incentive_amount`, `incentive_denom`; there is no
admin address field). -/
structure Config where
  min_round : Nat
  incentive_amount : Nat
  incentive_denom : String
deriving DecidableEq, Repr

/-- Embedding of `VerifiedBeacon`: verification timestamp (nanoseconds) and the
derived randomness (opaque byte string, modelled as `String`). -/
structure VerifiedBeacon where
  verified : Nat
  randomness : String
deriving DecidableEq, Repr

/-- Embedding of `Bot`: moniker and the number of rounds this bot added. -/
structure Bot where
  moniker : String
  rounds_added : Nat
deriving DecidableEq, Repr

/-- Embedding of `StoredSubmission`: the submission timestamp. -/
structure StoredSubmission where
  time : Nat
deriving DecidableEq, Repr

/-- Embedding of `Job` from the oracle's `crate::state`. -/
structure Job where
  source_id : String
  channel : String
  sender : String
  job_id : String
deriving DecidableEq, Repr

/-- Outbound messages of the oracle contract: a `BankMsg::Send` of the
incentive coin, or an `IbcMsg::SendPacket` carrying a `DeliverBeaconPacket`
`\x7b sender, job_id, randomness, source_id \x7d` with a timeout. -/
inductive OutMsg where
  | bankSend (to_address : String) (amount : Nat) (denom : String)
  | sendPacket (channel_id : String) (sender : String) (job_id : String)
      (randomness : String) (source_id : String) (timeout : Nat)
deriving DecidableEq, Repr

/-- Embedding of the oracle contract's durable state.  Storage maps become
functions; the per-round unprocessed job queue becomes a list (head = front).
`submissions_order` models the `SUBMISSIONS_ORDER` map for one round as the
list of submitter addresses in insertion order (the map is only ever written
at index `max + 1`, so its keys are dense and a list is faithful). -/
structure OracleState where
  config : Config
  beacons : Nat → Option VerifiedBeacon
  bots : String → Option Bot
  whitelist : String → Bool
  submissions : Nat → String → Option StoredSubmission
  submissions_order : Nat → List String
  unprocessed_jobs : Nat → List Job
  processed_jobs : Nat → Nat

/-- Embedding of `ContractError` (variants used by the modelled entry points). -/
inductive ContractError where
  | genericErr (msg : String)
  | roundTooLow (round : Nat) (min_round : Nat)
  | invalidPubkey
  | invalidSignature
  | submissionExists
  | invalidJobId
  | invalidMoniker
  | decodeFailure
deriving DecidableEq, Repr

/-- Embedding of a contract `Response`: ordered outbound messages plus
attributes. -/
structure Response where
  msgs : List OutMsg
  attributes : List (String × String)
deriving DecidableEq, Repr

/-- Constant `NUMBER_OF_INCENTIVES_PER_ROUND` from `contract.rs`. -/
def NUMBER_OF_INCENTIVES_PER_ROUND : Nat := 6

/-- Constant `MAX_JOBS_PER_SUBMISSION` from `contract.rs`. -/
def MAX_JOBS_PER_SUBMISSION : Nat := 3

/-- Modelled from the spec: `DELIVER_BEACON_PACKET_LIFETIME` lives in the
`nois_protocol` package, not under `src/`; the spec only says the delivery
message carries "a bounded validity/expiry window from the emission time (a
fixed lifetime constant)", so any fixed constant is faithful. -/
def DELIVER_BEACON_PACKET_LIFETIME : Nat := 100

/-- Pointwise update of a string-keyed storage map. -/
def updStr {β : Type} (f : String → β) (k : String) (v : β) : String → β :=
  fun a => if a = k then v else f a

/-- Pointwise update of a nat-keyed storage map. -/
def updNat {β : Type} (f : Nat → β) (k : Nat) (v : β) : Nat → β :=
  fun a => if a = k then v else f a

/-- Pointwise update of the `(round, address)`-keyed submissions map. -/
def updSub {β : Type} (f : Nat → String → β) (r : Nat) (k : String) (v : β) :
    Nat → String → β :=
  fun r' a => if r' = r ∧ a = k then v else f r' a

/-- Embedding of `create_deliver_beacon_ibc_message` from `contract.rs`:
turns a job plus a verified beacon into one `IbcMsg::SendPacket` on the job's
return channel, with timeout `block time + DELIVER_BEACON_PACKET_LIFETIME`. -/
def create_deliver_beacon_ibc_message (blocktime : Nat) (job : Job)
    (beacon : VerifiedBeacon) : OutMsg :=
  OutMsg.sendPacket job.channel job.sender job.job_id beacon.randomness job.source_id
    (blocktime + DELIVER_BEACON_PACKET_LIFETIME * 1000000000)

/-- Embedding of the drain loop of `execute_add_round`
(`while let Some(job) = unprocessed_jobs_dequeue(...)`): dequeues jobs from the
front of the round's queue; after processing a job, the loop breaks once
`jobs_processed >= cap`.  Returns the dequeued jobs in order and the remaining
queue.  The queue primitives `unprocessed_jobs_enqueue` / `_dequeue` live in
the missing `crate::state`; modelled from the spec as a per-round FIFO
(enqueue appends to the tail, dequeue pops the head). -/
def drainJobs (cap : Nat) (queue : List Job) : List Job × List Job :=
  match queue with
  | [] => ([], [])
  | j :: rest =>
    if cap ≤ 1 then ([j], rest)
    else
      let p := drainJobs (cap - 1) rest
      (j :: p.1, p.2)

/-- Embedding of the body of `execute_add_round` after its four guard checks
(funds, `min_round`, pubkey parse, signature verification) have passed.
Mirrors the source order: duplicate-submission check, bot `rounds_added` bump,
whitelist lookup, submission + submission-order writes, incentive eligibility
and balance-guarded `BankMsg::Send`, write-once beacon store, capped job
drain. -/
def add_round_core (st : OracleState) (blockTime : Nat) (sender : String)
    (round : Nat) (randomness : String) (balance : Nat) :
    Except ContractError (OracleState × Response) :=
  let beacon : VerifiedBeacon := { verified := blockTime, randomness := randomness }
  if (st.submissions round sender).isSome then
    Except.error ContractError.submissionExists
  else
    let isRegistered := (st.bots sender).isSome
    let bots1 := match st.bots sender with
      | some bot => updStr st.bots sender (some { bot with rounds_added := bot.rounds_added + 1 })
      | none => st.bots
    let isWhitelisted := st.whitelist sender
    let submissions1 := updSub st.submissions round sender (some { time := blockTime })
    let nextIndex := (st.submissions_order round).length
    let order1 := updNat st.submissions_order round (st.submissions_order round ++ [sender])
    let isEligible := isRegistered && isWhitelisted &&
      decide (nextIndex < NUMBER_OF_INCENTIVES_PER_ROUND)
    let baseAttrs := [("round", toString round), ("randomness", randomness),
      ("worker", sender)]
    let attrs := if isEligible then
        baseAttrs ++ [("bot_incentive",
          toString st.config.incentive_amount ++ st.config.incentive_denom)]
      else baseAttrs
    let payMsgs : List OutMsg :=
      if isEligible && decide (st.config.incentive_amount ≤ balance) then
        [OutMsg.bankSend sender st.config.incentive_amount st.config.incentive_denom]
      else []
    let beacons1 := if (st.beacons round).isSome then st.beacons
      else updNat st.beacons round (some beacon)
    let drained := drainJobs MAX_JOBS_PER_SUBMISSION (st.unprocessed_jobs round)
    let deliverMsgs := drained.1.map (create_deliver_beacon_ibc_message blockTime · beacon)
    let st' : OracleState :=
      { st with
        bots := bots1
        submissions := submissions1
        submissions_order := order1
        beacons := beacons1
        unprocessed_jobs := updNat st.unprocessed_jobs round drained.2
        processed_jobs := updNat st.processed_jobs round
          (st.processed_jobs round + drained.1.length) }
    Except.ok (st', { msgs := payMsgs ++ deliverMsgs, attributes := attrs })

/-- Embedding of `execute_add_round` from `contract.rs`.  The cryptographic
boundary is abstracted exactly at the calls into `drand_verify`: `sigOk`
stands for the result of `verify(&pk, round, &previous_signature, &signature)`
and `randomness` for `derive_randomness(signature)`; parsing the fixed
`DRAND_MAINNET_PUBKEY` constant succeeds (witnessed by the in-repo tests that
reach `InvalidSignature` and beyond).  `balance` is the contract's balance of
the incentive denom as returned by the bank querier. -/
def execute_add_round (st : OracleState) (blockTime : Nat) (sender : String)
    (fundsEmpty : Bool) (round : Nat) (sigOk : Bool) (randomness : String)
    (balance : Nat) : Except ContractError (OracleState × Response) :=
  if !fundsEmpty then
    Except.error (ContractError.genericErr "Do not send funds")
  else if round < st.config.min_round then
    Except.error (ContractError.roundTooLow round st.config.min_round)
  else if !sigOk then
    Except.error ContractError.invalidSignature
  else
    add_round_core st blockTime sender round randomness balance

/-- Transactional semantics of the host: a failed call commits nothing, so the
post-state of a call is the new state on success and the unchanged pre-state
on error. -/
def applyAddRound (st : OracleState) (blockTime : Nat) (sender : String)
    (fundsEmpty : Bool) (round : Nat) (sigOk : Bool) (randomness : String)
    (balance : Nat) : OracleState :=
  match execute_add_round st blockTime sender fundsEmpty round sigOk randomness balance with
  | Except.ok (st', _) => st'
  | Except.error _ => st

/-- Messages emitted by a call of `execute_add_round` (empty on error). -/
def addRoundMsgs (st : OracleState) (blockTime : Nat) (sender : String)
    (fundsEmpty : Bool) (round : Nat) (sigOk : Bool) (randomness : String)
    (balance : Nat) : List OutMsg :=
  match execute_add_round st blockTime sender fundsEmpty round sigOk randomness balance with
  | Except.ok (_, resp) => resp.msgs
  | Except.error _ => []

/-- Discriminator for delivery messages among outbound messages. -/
def isDeliver : OutMsg → Bool
  | OutMsg.sendPacket _ _ _ _ _ _ => true
  | OutMsg.bankSend _ _ _ => false

/-- Success discriminator for `Except` results. -/
def exceptIsOk {ε α : Type} : Except ε α → Bool
  | Except.ok _ => true
  | Except.error _ => false

theorem drainJobs_eq (cap : Nat) (q : List Job) (h : 1 ≤ cap) :
    drainJobs cap q = (q.take cap, q.drop cap) := by
  induction q generalizing cap with
  | nil => simp [drainJobs]
  | cons j rest ih =>
    by_cases hc : cap ≤ 1
    · have : cap = 1 := by omega
      subst this
      simp [drainJobs]
    · have h1 : 1 ≤ cap - 1 := by omega
      have htake : cap = (cap - 1) + 1 := by omega
      simp only [drainJobs, if_neg hc, ih (cap - 1) h1]
      rw [htake]
      simp

theorem filter_isDeliver_map (blockTime : Nat) (b : VerifiedBeacon) (l : List Job) :
    (l.map (create_deliver_beacon_ibc_message blockTime · b)).filter isDeliver =
      l.map (create_deliver_beacon_ibc_message blockTime · b) := by
  induction l with
  | nil => rfl
  | cons j t ih => simp [create_deliver_beacon_ibc_message, isDeliver, ih]

/-- Test fixture: the i-th queued job. -/
def testJob (i : Nat) : Job :=
  { source_id := "s", channel := "chan", sender := "dapp", job_id := toString i }

/-- Test fixture for C4: fresh contract state with 7 jobs queued for round 100
and no registered or whitelisted bots. -/
def c4State : OracleState :=
  { config := { min_round := 10, incentive_amount := 1000000, incentive_denom := "unois" }
    beacons := fun _ => none
    bots := fun _ => none
    whitelist := fun _ => false
    submissions := fun _ _ => none
    submissions_order := fun _ => []
    unprocessed_jobs := fun r => if r = 100 then (List.range 7).map testJob else []
    processed_jobs := fun _ => 0 }

/-- State after the first valid submission for round 100 in the C4 scenario. -/
def c4s1 : OracleState := applyAddRound c4State 5 "bot1" true 100 true "rnd" 0

/-- State after the second valid submission for round 100 in the C4 scenario. -/
def c4s2 : OracleState := applyAddRound c4s1 5 "bot2" true 100 true "rnd" 0

/-- Claim C4: a valid submission drains queued jobs in FIFO (enqueue) order and
stops after at most `MAX_JOBS_PER_SUBMISSION = 3` jobs: the call succeeds, its
delivery messages are exactly the first three queued jobs of the round in
order, the remaining jobs stay queued unchanged (queues of other rounds
untouched); concretely, with 7 queued jobs three consecutive valid submissions
dispatch exactly 3, 3 and 1 delivery messages. -/
theorem C4_fifo_capped_drain :
    (∀ (st : OracleState) (blockTime : Nat) (sender : String) (round : Nat)
        (randomness : String) (balance : Nat),
      st.submissions round sender = none →
      ¬ round < st.config.min_round →
      exceptIsOk (execute_add_round st blockTime sender true round true randomness balance)
          = true ∧
      (addRoundMsgs st blockTime sender true round true randomness balance).filter isDeliver =
        ((st.unprocessed_jobs round).take MAX_JOBS_PER_SUBMISSION).map
          (create_deliver_beacon_ibc_message blockTime ·
            { verified := blockTime, randomness := randomness }) ∧
      (applyAddRound st blockTime sender true round true randomness balance).unprocessed_jobs
          round = (st.unprocessed_jobs round).drop MAX_JOBS_PER_SUBMISSION ∧
      (∀ r' : Nat, r' ≠ round →
        (applyAddRound st blockTime sender true round true randomness balance).unprocessed_jobs
            r' = st.unprocessed_jobs r')) ∧
    (addRoundMsgs c4State 5 "bot1" true 100 true "rnd" 0).length = 3 ∧
    (addRoundMsgs c4s1 5 "bot2" true 100 true "rnd" 0).length = 3 ∧
    (addRoundMsgs c4s2 5 "bot3" true 100 true "rnd" 0).length = 1 := by
  refine ⟨?_, by decide, by decide, by decide⟩
  intro st blockTime sender round randomness balance hdup hmin
  have hexec : execute_add_round st blockTime sender true round true randomness balance =
      add_round_core st blockTime sender round randomness balance := by
    simp [execute_add_round, hmin]
  have hq : drainJobs MAX_JOBS_PER_SUBMISSION (st.unprocessed_jobs round) =
      ((st.unprocessed_jobs round).take MAX_JOBS_PER_SUBMISSION,
       (st.unprocessed_jobs round).drop MAX_JOBS_PER_SUBMISSION) :=
    drainJobs_eq _ _ (by decide)
  refine ⟨?_, ?_, ?_, ?_⟩
  · simp [exceptIsOk, hexec, add_round_core, hdup]
  · simp only [addRoundMsgs, hexec, add_round_core, hdup, Option.isSome_none,
      Bool.false_eq_true, if_false, hq]
    simp only [List.filter_append, filter_isDeliver_map]
    have hpay : ∀ c : Bool, (List.filter isDeliver
        (if c then [OutMsg.bankSend sender st.config.incentive_amount
          st.config.incentive_denom] else [])) = [] := by
      intro c
      cases c <;> simp [isDeliver]
    rw [hpay]
    simp
  · simp [applyAddRound, hexec, add_round_core, hdup, hq, updNat]
  · intro r' hr'
    simp [applyAddRound, hexec, add_round_core, hdup, hq, updNat, hr']

/-- Witness for C4: the universally quantified conjunct applied to the
concrete C4 scenario state, sender `bot1`, round 100. -/
theorem C4_fifo_capped_drain_witness :
    c4State.submissions 100 "bot1" = none ∧
    ¬ (100 : Nat) < c4State.config.min_round ∧
    (applyAddRound c4State 5 "bot1" true 100 true "rnd" 0).unprocessed_jobs 100 =
      (c4State.unprocessed_jobs 100).drop MAX_JOBS_PER_SUBMISSION :=
  ⟨rfl, by decide,
    (C4_fifo_capped_drain.1 c4State 5 "bot1" 100 "rnd" 0 rfl (by decide)).2.2.1⟩

/-- Embedding of `Job` from the gateway's `crate::state` (origin payload is an
opaque binary, modelled as `String`). -/
structure GJob where
  source_id : String
  channel : String
  origin : String
deriving DecidableEq, Repr

/-- Outbound gateway message: `IbcMsg::SendPacket` carrying a
`DeliverBeaconPacket \x7b randomness, source_id, origin \x7d`. -/
inductive GMsg where
  | sendPacket (channel_id : String) (randomness : String) (source_id : String)
      (origin : String) (timeout : Nat)
deriving DecidableEq, Repr

/-- Embedding of the gateway contract state used by the request router. -/
structure GatewayState where
  archive : Nat → Option String
  unprocessed_drand_jobs : Nat → List GJob
  processed_drand_jobs : Nat → Nat

/-- Constant from `request_router.rs`. -/
def MAX_JOBS_PER_SUBMISSION_WITH_VERIFICATION : Nat := 2

/-- Constant from `request_router.rs`. -/
def MAX_JOBS_PER_SUBMISSION_WITHOUT_VERIFICATION : Nat := 14

/-- Modelled from the spec: the gateway's `archive_store` lives in
`crate::drand_archive`, which is not under `src/`.  The spec (section 4.3)
fixes `store(round, randomness)` as idempotent: if a record for the round
already exists the call is a no-op. -/
def archive_store (ar : Nat → Option String) (round : Nat) (randomness : String) :
    Nat → Option String :=
  match ar round with
  | some _ => ar
  | none => updNat ar round (some randomness)

/-- Modelled from the spec: the gateway's `archive_lookup` is a pure read. -/
def archive_lookup (ar : Nat → Option String) (round : Nat) : Option String :=
  ar round

/-- Embedding of the gateway's `create_deliver_beacon_ibc_message` from
`request_router.rs`. -/
def gateway_deliver_msg (blocktime : Nat) (job : GJob) (randomness : String) : GMsg :=
  GMsg.sendPacket job.channel randomness job.source_id job.origin
    (blocktime + DELIVER_BEACON_PACKET_LIFETIME * 1000000000)

/-- Embedding of the drain loop of the gateway's `new_drand` (identical loop
shape to the oracle's). -/
def gdrainJobs (cap : Nat) (queue : List GJob) : List GJob × List GJob :=
  match queue with
  | [] => ([], [])
  | j :: rest =>
    if cap ≤ 1 then ([j], rest)
    else
      let p := gdrainJobs (cap - 1) rest
      (j :: p.1, p.2)

/-- Embedding of `NewDrand` from `request_router.rs`. -/
structure NewDrand where
  msgs : List GMsg
  jobs_processed : Nat
  jobs_left : Nat
deriving DecidableEq, Repr

/-- Embedding of `RequestRouter::new_drand` from `request_router.rs`: stores
the randomness in the archive, then drains the round's job queue up to the
call-site-dependent cap (2 for the verifying path, 14 for the non-verifying
path), emitting one delivery message per drained job. -/
def new_drand (st : GatewayState) (blockTime : Nat) (round : Nat)
    (randomness : String) (is_verifying_tx : Bool) : GatewayState × NewDrand :=
  let archive1 := archive_store st.archive round randomness
  let cap := if is_verifying_tx then MAX_JOBS_PER_SUBMISSION_WITH_VERIFICATION
    else MAX_JOBS_PER_SUBMISSION_WITHOUT_VERIFICATION
  let drained := gdrainJobs cap (st.unprocessed_drand_jobs round)
  let msgs := drained.1.map (gateway_deliver_msg blockTime · randomness)
  let st' : GatewayState :=
    { archive := archive1
      unprocessed_drand_jobs := updNat st.unprocessed_drand_jobs round drained.2
      processed_drand_jobs := updNat st.processed_drand_jobs round
        (st.processed_drand_jobs round + drained.1.length) }
  (st', { msgs := msgs, jobs_processed := drained.1.length, jobs_left := drained.2.length })

/-- Test fixture for C1: state with a beacon already archived for round 100. -/
def c1State : OracleState :=
  { config := { min_round := 10, incentive_amount := 1000000, incentive_denom := "unois" }
    beacons := fun r => if r = 100 then some { verified := 7, randomness := "r0" } else none
    bots := fun _ => none
    whitelist := fun _ => false
    submissions := fun _ _ => none
    submissions_order := fun _ => []
    unprocessed_jobs := fun _ => []
    processed_jobs := fun _ => 0 }

/-- Test fixture for C1: gateway state with randomness archived for round 100. -/
def c1GState : GatewayState :=
  { archive := fun r => if r = 100 then some "r0" else none
    unprocessed_drand_jobs := fun _ => []
    processed_drand_jobs := fun _ => 0 }

/-- Claim C1: once a beacon record is stored for a round, any later call of a
beacon-storing code path for the same round leaves the stored record (its
randomness and verification timestamp) unchanged — in the oracle, every later
`AddRound` call (valid or not) preserves `BEACONS[round]`; in the gateway,
`new_drand` preserves the archived randomness. -/
theorem C1_beacon_write_once :
    (∀ (st : OracleState) (blockTime : Nat) (sender : String) (fundsEmpty : Bool)
        (round : Nat) (sigOk : Bool) (randomness : String) (balance : Nat)
        (b : VerifiedBeacon),
      st.beacons round = some b →
      (applyAddRound st blockTime sender fundsEmpty round sigOk randomness
        balance).beacons round = some b) ∧
    (∀ (gst : GatewayState) (blockTime round : Nat) (randomness : String)
        (is_verifying_tx : Bool) (r0 : String),
      gst.archive round = some r0 →
      ((new_drand gst blockTime round randomness is_verifying_tx).1).archive round =
        some r0) := by
  constructor
  · intro st blockTime sender fundsEmpty round sigOk randomness balance b hb
    unfold applyAddRound
    cases hexec : execute_add_round st blockTime sender fundsEmpty round sigOk
        randomness balance with
    | error e => exact hb
    | ok p =>
      obtain ⟨st', resp⟩ := p
      simp only [execute_add_round] at hexec
      split at hexec
      · exact absurd hexec (by simp)
      split at hexec
      · exact absurd hexec (by simp)
      split at hexec
      · exact absurd hexec (by simp)
      simp only [add_round_core] at hexec
      split at hexec
      · exact absurd hexec (by simp)
      simp only [Except.ok.injEq, Prod.mk.injEq] at hexec
      obtain ⟨h1, h2⟩ := hexec
      subst h1
      simp [hb]
  · intro gst blockTime round randomness is_verifying_tx r0 hb
    simp [new_drand, archive_store, hb]

/-- Witness for C1: both conjuncts applied at round 100 of the concrete
fixtures, where a beacon with randomness `r0` is already stored. -/
theorem C1_beacon_write_once_witness :
    c1State.beacons 100 = some { verified := 7, randomness := "r0" } ∧
    c1GState.archive 100 = some "r0" ∧
    (applyAddRound c1State 9 "bot1" true 100 true "other" 0).beacons 100 =
      some { verified := 7, randomness := "r0" } ∧
    ((new_drand c1GState 9 100 "other" true).1).archive 100 = some "r0" :=
  ⟨rfl, rfl,
    C1_beacon_write_once.1 c1State 9 "bot1" true 100 true "other" 0 _ rfl,
    C1_beacon_write_once.2 c1GState 9 100 "other" true "r0" rfl⟩

/-- Discriminator for incentive payment messages among outbound messages. -/
def isPay : OutMsg → Bool
  | OutMsg.bankSend _ _ _ => true
  | OutMsg.sendPacket _ _ _ _ _ _ => false

theorem filter_isPay_map (blockTime : Nat) (b : VerifiedBeacon) (l : List Job) :
    (l.map (create_deliver_beacon_ibc_message blockTime · b)).filter isPay = [] := by
  induction l with
  | nil => rfl
  | cons j t ih => simp [create_deliver_beacon_ibc_message, isPay, ih]

/-- Test fixture for C5: sender `bot1` is registered and whitelisted, nobody
submitted for round 100 yet, and the balance (passed per call) decides the
payment. -/
def c5State : OracleState :=
  { config := { min_round := 10, incentive_amount := 1000000, incentive_denom := "unois" }
    beacons := fun _ => none
    bots := fun a => if a = "bot1" then some { moniker := "b", rounds_added := 0 } else none
    whitelist := fun a => a = "bot1"
    submissions := fun _ _ => none
    submissions_order := fun _ => []
    unprocessed_jobs := fun _ => []
    processed_jobs := fun _ => 0 }

/-- Claim C5: on a valid `AddRound` submission the call succeeds, and a payment
message of the configured `(incentive_amount, incentive_denom)` is emitted if
and only if the submitter is registered, whitelisted, its submission-order
index for the round is below `NUMBER_OF_INCENTIVES_PER_ROUND = 6`, and the
contract balance of the denom covers the incentive amount; independently of
the balance, the submission record, the submission order entry, the beacon
archive write (when the round is new) and the queue drain all commit. -/
theorem C5_incentive_eligibility_and_balance_skip (st : OracleState)
    (blockTime : Nat) (sender : String) (round : Nat) (randomness : String)
    (balance : Nat)
    (hdup : st.submissions round sender = none)
    (hmin : ¬ round < st.config.min_round) :
    exceptIsOk (execute_add_round st blockTime sender true round true randomness balance)
        = true ∧
    (addRoundMsgs st blockTime sender true round true randomness balance).filter isPay =
      (if ((st.bots sender).isSome && st.whitelist sender &&
            decide ((st.submissions_order round).length < NUMBER_OF_INCENTIVES_PER_ROUND)) &&
          decide (st.config.incentive_amount ≤ balance) then
        [OutMsg.bankSend sender st.config.incentive_amount st.config.incentive_denom]
      else []) ∧
    (applyAddRound st blockTime sender true round true randomness balance).submissions
        round sender = some { time := blockTime } ∧
    (applyAddRound st blockTime sender true round true randomness balance).submissions_order
        round = st.submissions_order round ++ [sender] ∧
    (applyAddRound st blockTime sender true round true randomness balance).unprocessed_jobs
        round = (st.unprocessed_jobs round).drop MAX_JOBS_PER_SUBMISSION ∧
    (st.beacons round = none →
      (applyAddRound st blockTime sender true round true randomness balance).beacons round =
        some { verified := blockTime, randomness := randomness }) := by
  have hexec : execute_add_round st blockTime sender true round true randomness balance =
      add_round_core st blockTime sender round randomness balance := by
    simp [execute_add_round, hmin]
  have hq : drainJobs MAX_JOBS_PER_SUBMISSION (st.unprocessed_jobs round) =
      ((st.unprocessed_jobs round).take MAX_JOBS_PER_SUBMISSION,
       (st.unprocessed_jobs round).drop MAX_JOBS_PER_SUBMISSION) :=
    drainJobs_eq _ _ (by decide)
  refine ⟨?_, ?_, ?_, ?_, ?_, ?_⟩
  · simp [exceptIsOk, hexec, add_round_core, hdup]
  · simp only [addRoundMsgs, hexec, add_round_core, hdup, Option.isSome_none,
      Bool.false_eq_true, if_false]
    simp only [List.filter_append, filter_isPay_map, List.append_nil]
    rcases hbot : st.bots sender with _ | bot <;>
      rcases hw : st.whitelist sender <;>
      by_cases hn : (st.submissions_order round).length < NUMBER_OF_INCENTIVES_PER_ROUND <;>
      by_cases hbal : st.config.incentive_amount ≤ balance <;>
      simp [hbot, hw, hn, hbal, isPay]
  · simp [applyAddRound, hexec, add_round_core, hdup, updSub]
  · simp [applyAddRound, hexec, add_round_core, hdup, updNat]
  · simp [applyAddRound, hexec, add_round_core, hdup, updNat, hq]
  · intro hnone
    simp [applyAddRound, hexec, add_round_core, hdup, hnone, updNat]

/-- Witness for C5: applied to the fixture with registered, whitelisted sender
`bot1`, round 100 and a balance of 0 (below the incentive amount of 1000000):
the call still succeeds and emits no payment message. -/
theorem C5_incentive_eligibility_and_balance_skip_witness :
    c5State.submissions 100 "bot1" = none ∧
    ¬ (100 : Nat) < c5State.config.min_round ∧
    exceptIsOk (execute_add_round c5State 5 "bot1" true 100 true "rnd" 0) = true :=
  ⟨rfl, by decide,
    (C5_incentive_eligibility_and_balance_skip c5State 5 "bot1" 100 "rnd" 0 rfl
      (by decide)).1⟩

/-- Test fixture for C6: `alice` already submitted for round 100. -/
def c6State : OracleState :=
  { config := { min_round := 10, incentive_amount := 1000000, incentive_denom := "unois" }
    beacons := fun r => if r = 100 then some { verified := 3, randomness := "r0" } else none
    bots := fun _ => none
    whitelist := fun _ => false
    submissions := fun r a => if r = 100 ∧ a = "alice" then some { time := 3 } else none
    submissions_order := fun r => if r = 100 then ["alice"] else []
    unprocessed_jobs := fun _ => []
    processed_jobs := fun _ => 0 }

/-- Claim C6: a second `AddRound` call by the same submitter for the same round
(with the earlier guards passing) fails with the duplicate-submission error,
and — by the transactional call semantics — commits no state change. -/
theorem C6_duplicate_submission_rejected (st : OracleState) (blockTime : Nat)
    (sender : String) (round : Nat) (randomness : String) (balance : Nat)
    (sub : StoredSubmission)
    (hdup : st.submissions round sender = some sub)
    (hmin : ¬ round < st.config.min_round) :
    execute_add_round st blockTime sender true round true randomness balance =
      Except.error ContractError.submissionExists ∧
    applyAddRound st blockTime sender true round true randomness balance = st := by
  have hexec : execute_add_round st blockTime sender true round true randomness balance =
      add_round_core st blockTime sender round randomness balance := by
    simp [execute_add_round, hmin]
  have herr : add_round_core st blockTime sender round randomness balance =
      Except.error ContractError.submissionExists := by
    simp [add_round_core, hdup]
  exact ⟨hexec.trans herr, by simp [applyAddRound, hexec, herr]⟩

/-- Witness for C6: applied to the fixture where `alice` already submitted for
round 100; her second call errors with `SubmissionExists` and leaves the state
unchanged. -/
theorem C6_duplicate_submission_rejected_witness :
    c6State.submissions 100 "alice" = some { time := 3 } ∧
    ¬ (100 : Nat) < c6State.config.min_round ∧
    execute_add_round c6State 8 "alice" true 100 true "rnd" 0 =
      Except.error ContractError.submissionExists :=
  ⟨rfl, by decide,
    (C6_duplicate_submission_rejected c6State 8 "alice" 100 "rnd" 0 { time := 3 } rfl
      (by decide)).1⟩

/-- Embedding of `RequestBeaconPacketAck`: the acknowledgement payload sent
back to the requester. -/
inductive RequestAck where
  | processed (source_id : String)
  | queued (source_id : String)
deriving DecidableEq, Repr

/-- Embedding of `StdAck`: a tagged success or error acknowledgement. -/
inductive StdAckM where
  | success (a : RequestAck)
  | error (msg : String)
deriving DecidableEq, Repr

/-- Embedding of `IbcReceiveResponse` (acknowledgement plus outbound messages;
events and attributes are not modelled). -/
structure IbcReceiveResponse where
  ack : StdAckM
  msgs : List OutMsg
deriving DecidableEq, Repr

/-- Embedding of `RequestBeaconPacket`: the decoded inbound request. -/
structure RequestBeaconPacket where
  after : Nat
  sender : String
  job_id : String
deriving DecidableEq, Repr

/-- Modelled from the spec: `validate_job_id` lives in `crate::job_id`, which
is not under `src/`.  The spec only says a malformed job/request identifier is
a validation error rejected before any state change; modelled as a bound on
the identifier length. -/
def validate_job_id (job_id : String) : Bool :=
  job_id.length ≤ 64

/-- Rendering of a `ContractError` for the error acknowledgement text. -/
def errString : ContractError → String
  | ContractError.genericErr m => m
  | ContractError.roundTooLow _ _ => "round too low"
  | ContractError.invalidPubkey => "invalid pubkey"
  | ContractError.invalidSignature => "invalid signature"
  | ContractError.submissionExists => "submission exists"
  | ContractError.invalidJobId => "invalid job id"
  | ContractError.invalidMoniker => "invalid moniker"
  | ContractError.decodeFailure => "invalid packet data"

/-- Embedding of `receive_request_beacon` from `contract.rs`: validates the
job id, commits to a round; if the round's beacon is archived, bumps the
processed-jobs counter and emits one delivery message with ack `Processed`;
otherwise enqueues one job and acks `Queued`. -/
def receive_request_beacon (st : OracleState) (blockTime : Nat) (channel : String)
    (after : Nat) (sender : String) (job_id : String) :
    Except ContractError (OracleState × IbcReceiveResponse) :=
  if !validate_job_id job_id then
    Except.error ContractError.invalidJobId
  else
    let rc := commit_to_drand_round after
    let job : Job :=
      { source_id := rc.2, channel := channel, sender := sender, job_id := job_id }
    match st.beacons rc.1 with
    | some beacon =>
        let pj := updNat st.processed_jobs rc.1 (st.processed_jobs rc.1 + 1)
        Except.ok
          ({ st with processed_jobs := pj },
           { ack := StdAckM.success (RequestAck.processed rc.2),
             msgs := [create_deliver_beacon_ibc_message blockTime job beacon] })
    | none =>
        let uj := updNat st.unprocessed_jobs rc.1 (st.unprocessed_jobs rc.1 ++ [job])
        Except.ok
          ({ st with unprocessed_jobs := uj },
           { ack := StdAckM.success (RequestAck.queued rc.2), msgs := [] })

/-- Inner request handling of `ibc_packet_receive` (the closure body in
`contract.rs`): decode the packet data, then handle the request.  A failed
decode is the `from_slice` error. -/
def innerHandle (st : OracleState) (blockTime : Nat) (channel : String)
    (decoded : Option RequestBeaconPacket) :
    Except ContractError (OracleState × IbcReceiveResponse) :=
  match decoded with
  | none => Except.error ContractError.decodeFailure
  | some p => receive_request_beacon st blockTime channel p.after p.sender p.job_id

/-- Embedding of the `ibc_packet_receive` entry point: the closure result is
mapped through `or_else`, converting every error into an error acknowledgement
so the entry point itself is total (`Result<_, Never>`). -/
def ibc_packet_receive (st : OracleState) (blockTime : Nat) (channel : String)
    (decoded : Option RequestBeaconPacket) : OracleState × IbcReceiveResponse :=
  match innerHandle st blockTime channel decoded with
  | Except.ok r => r
  | Except.error e =>
      (st, { ack := StdAckM.error ("Error processing packet: " ++ errString e),
             msgs := [] })

/-- Post-state of a `receive_request_beacon` call under transactional call
semantics (unchanged state on error). -/
def applyReceive (st : OracleState) (blockTime : Nat) (channel : String)
    (after : Nat) (sender : String) (job_id : String) : OracleState :=
  match receive_request_beacon st blockTime channel after sender job_id with
  | Except.ok (st', _) => st'
  | Except.error _ => st

/-- Response of a successful `receive_request_beacon` call. -/
def receiveResp (st : OracleState) (blockTime : Nat) (channel : String)
    (after : Nat) (sender : String) (job_id : String) : Option IbcReceiveResponse :=
  match receive_request_beacon st blockTime channel after sender job_id with
  | Except.ok (_, resp) => some resp
  | Except.error _ => none

/-- Embedding of `RoutingReceipt` from `request_router.rs`. -/
structure RoutingReceipt where
  acknowledgement : StdAckM
  msgs : List GMsg
deriving DecidableEq, Repr

/-- Embedding of `RequestRouter::handle_drand` from `request_router.rs` (the
`route` method forwards to it): on an archive hit, bump the processed counter
and emit one delivery message with ack `Processed`; on a miss, enqueue one job
with ack `Queued`. -/
def handle_drand (st : GatewayState) (blockTime : Nat) (channel : String)
    (after : Nat) (origin : String) : GatewayState × RoutingReceipt :=
  let rc := commit_to_drand_round after
  let job : GJob := { source_id := rc.2, channel := channel, origin := origin }
  match archive_lookup st.archive rc.1 with
  | some randomness =>
      let pj := updNat st.processed_drand_jobs rc.1 (st.processed_drand_jobs rc.1 + 1)
      ({ st with processed_drand_jobs := pj },
       { acknowledgement := StdAckM.success (RequestAck.processed rc.2),
         msgs := [gateway_deliver_msg blockTime job randomness] })
  | none =>
      let uj := updNat st.unprocessed_drand_jobs rc.1 (st.unprocessed_drand_jobs rc.1 ++ [job])
      ({ st with unprocessed_drand_jobs := uj },
       { acknowledgement := StdAckM.success (RequestAck.queued rc.2), msgs := [] })

/-- Test fixture for C7: oracle state with a beacon archived for round 1 (the
round committed for any pre-genesis timestamp). -/
def c7State : OracleState :=
  { config := { min_round := 10, incentive_amount := 1000000, incentive_denom := "unois" }
    beacons := fun r => if r = 1 then some { verified := 7, randomness := "r0" } else none
    bots := fun _ => none
    whitelist := fun _ => false
    submissions := fun _ _ => none
    submissions_order := fun _ => []
    unprocessed_jobs := fun _ => []
    processed_jobs := fun _ => 0 }

/-- Claim C7: an inbound beacon request whose committed round is already
archived yields exactly one delivery message, leaves the job queue (and the
archive) untouched and acks `Processed \x7b source_id \x7d`; a request for a
round not yet archived enqueues exactly one job for that round, emits no
message and acks `Queued \x7b source_id \x7d` — in both the oracle's
`receive_request_beacon` and the gateway's `handle_drand`. -/
theorem C7_request_hit_or_queue :
    (∀ (st : OracleState) (blockTime : Nat) (channel : String) (after : Nat)
        (sender job_id : String),
      validate_job_id job_id = true →
      (∀ b : VerifiedBeacon, st.beacons (commit_to_drand_round after).1 = some b →
        receiveResp st blockTime channel after sender job_id =
          some { ack := StdAckM.success (RequestAck.processed (commit_to_drand_round after).2),
                 msgs := [create_deliver_beacon_ibc_message blockTime
                   { source_id := (commit_to_drand_round after).2, channel := channel,
                     sender := sender, job_id := job_id } b] } ∧
        (applyReceive st blockTime channel after sender job_id).unprocessed_jobs =
          st.unprocessed_jobs ∧
        (applyReceive st blockTime channel after sender job_id).beacons = st.beacons) ∧
      (st.beacons (commit_to_drand_round after).1 = none →
        receiveResp st blockTime channel after sender job_id =
          some { ack := StdAckM.success (RequestAck.queued (commit_to_drand_round after).2),
                 msgs := [] } ∧
        (applyReceive st blockTime channel after sender job_id).unprocessed_jobs
            (commit_to_drand_round after).1 =
          st.unprocessed_jobs (commit_to_drand_round after).1 ++
            [{ source_id := (commit_to_drand_round after).2, channel := channel,
               sender := sender, job_id := job_id }] ∧
        (∀ r' : Nat, r' ≠ (commit_to_drand_round after).1 →
          (applyReceive st blockTime channel after sender job_id).unprocessed_jobs r' =
            st.unprocessed_jobs r') ∧
        (applyReceive st blockTime channel after sender job_id).processed_jobs =
          st.processed_jobs)) ∧
    (∀ (gst : GatewayState) (blockTime : Nat) (channel : String) (after : Nat)
        (origin : String),
      (∀ rnd : String, gst.archive (commit_to_drand_round after).1 = some rnd →
        (handle_drand gst blockTime channel after origin).2 =
          { acknowledgement := StdAckM.success
              (RequestAck.processed (commit_to_drand_round after).2),
            msgs := [gateway_deliver_msg blockTime
              { source_id := (commit_to_drand_round after).2, channel := channel,
                origin := origin } rnd] } ∧
        ((handle_drand gst blockTime channel after origin).1).unprocessed_drand_jobs =
          gst.unprocessed_drand_jobs ∧
        ((handle_drand gst blockTime channel after origin).1).archive = gst.archive) ∧
      (gst.archive (commit_to_drand_round after).1 = none →
        (handle_drand gst blockTime channel after origin).2 =
          { acknowledgement := StdAckM.success
              (RequestAck.queued (commit_to_drand_round after).2),
            msgs := [] } ∧
        ((handle_drand gst blockTime channel after origin).1).unprocessed_drand_jobs
            (commit_to_drand_round after).1 =
          gst.unprocessed_drand_jobs (commit_to_drand_round after).1 ++
            [{ source_id := (commit_to_drand_round after).2, channel := channel,
               origin := origin }])) := by
  constructor
  · intro st blockTime channel after sender job_id hval
    constructor
    · intro b hb
      refine ⟨?_, ?_, ?_⟩ <;>
        simp [receiveResp, applyReceive, receive_request_beacon, hval, hb]
    · intro hb
      refine ⟨?_, ?_, ?_, ?_⟩
      · simp [receiveResp, receive_request_beacon, hval, hb]
      · simp [applyReceive, receive_request_beacon, hval, hb, updNat]
      · intro r' hr'
        simp [applyReceive, receive_request_beacon, hval, hb, updNat, hr']
      · simp [applyReceive, receive_request_beacon, hval, hb]
  · intro gst blockTime channel after origin
    constructor
    · intro rnd hb
      refine ⟨?_, ?_, ?_⟩ <;>
        simp [handle_drand, archive_lookup, hb]
    · intro hb
      constructor
      · simp [handle_drand, archive_lookup, hb]
      · simp [handle_drand, archive_lookup, hb, updNat]

/-- Witness for C7: the oracle hit branch applied at the fixture `c7State`
(beacon archived for round 1) with a pre-genesis request timestamp 0. -/
theorem C7_request_hit_or_queue_witness :
    validate_job_id "job" = true ∧
    c7State.beacons (commit_to_drand_round 0).1 = some { verified := 7, randomness := "r0" } ∧
    receiveResp c7State 5 "chan" 0 "dapp" "job" =
      some { ack := StdAckM.success (RequestAck.processed (commit_to_drand_round 0).2),
             msgs := [create_deliver_beacon_ibc_message 5
               { source_id := (commit_to_drand_round 0).2, channel := "chan",
                 sender := "dapp", job_id := "job" }
               { verified := 7, randomness := "r0" }] } :=
  ⟨by decide, by decide,
    ((C7_request_hit_or_queue.1 c7State 5 "chan" 0 "dapp" "job" (by decide)).1
      { verified := 7, randomness := "r0" } (by decide)).1⟩

/-- Claim C8: the `ibc_packet_receive` entry point is total (it returns a
response for every input — the model's type is the embedding of
`Result<IbcReceiveResponse, Never>` after the `or_else`): whenever the inner
request handling errors (undecodable packet data, invalid job id, or any
other `ContractError`), the error is converted into an error acknowledgement
with the state unchanged, and whenever it succeeds the entry point returns its
result unchanged. -/
theorem C8_receive_never_aborts (st : OracleState) (blockTime : Nat)
    (channel : String) (decoded : Option RequestBeaconPacket) :
    (∀ e : ContractError, innerHandle st blockTime channel decoded = Except.error e →
      ibc_packet_receive st blockTime channel decoded =
        (st, { ack := StdAckM.error ("Error processing packet: " ++ errString e),
               msgs := [] })) ∧
    (∀ r : OracleState × IbcReceiveResponse,
      innerHandle st blockTime channel decoded = Except.ok r →
      ibc_packet_receive st blockTime channel decoded = r) ∧
    (decoded = none →
      innerHandle st blockTime channel decoded = Except.error ContractError.decodeFailure) ∧
    (∀ p : RequestBeaconPacket, decoded = some p → validate_job_id p.job_id = false →
      innerHandle st blockTime channel decoded = Except.error ContractError.invalidJobId) := by
  refine ⟨?_, ?_, ?_, ?_⟩
  · intro e he
    simp [ibc_packet_receive, he]
  · intro r hr
    simp [ibc_packet_receive, hr]
  · intro hd
    simp [innerHandle, hd]
  · intro p hd hval
    simp [innerHandle, hd, receive_request_beacon, hval]

/-- Witness for C8: applied at undecodable packet data (`decoded = none`) on
the fixture `c1State`; the entry point returns the error acknowledgement with
the state unchanged. -/
theorem C8_receive_never_aborts_witness :
    innerHandle c1State 5 "chan" none = Except.error ContractError.decodeFailure ∧
    ibc_packet_receive c1State 5 "chan" none =
      (c1State,
       { ack := StdAckM.error ("Error processing packet: " ++ errString ContractError.decodeFailure),
         msgs := [] }) :=
  ⟨rfl, (C8_receive_never_aborts c1State 5 "chan" none).1 ContractError.decodeFailure rfl⟩

/-- Embedding of `execute_update_whitelist_bots` from `contract.rs`: first all
`bots_to_dewhitelist` are removed (removal of a non-member is a no-op, so this
is an unconditional set-to-false), then all `bots_to_whitelist` are added
(adding an existing member is a no-op, so an unconditional set-to-true).
The function performs no caller check of any kind. -/
def execute_update_whitelist_bots (st : OracleState)
    (bots_to_whitelist bots_to_dewhitelist : List String) :
    Except ContractError OracleState :=
  let w1 := bots_to_dewhitelist.foldl (fun w b => updStr w b false) st.whitelist
  let w2 := bots_to_whitelist.foldl (fun w b => updStr w b true) w1
  Except.ok { st with whitelist := w2 }

/-- The `execute` dispatch for `ExecuteMsg::UpdateWhitelistBots` in
`contract.rs`: it receives `info` (the caller) but passes only the two bot
lists on, discarding the caller entirely. -/
def executeUpdateWhitelistWithCaller (st : OracleState) (_caller : String)
    (bots_to_whitelist bots_to_dewhitelist : List String) :
    Except ContractError OracleState :=
  execute_update_whitelist_bots st bots_to_whitelist bots_to_dewhitelist

/-- Post-state of an `UpdateWhitelistBots` call under transactional call
semantics. -/
def applyUpdateWhitelist (st : OracleState)
    (bots_to_whitelist bots_to_dewhitelist : List String) : OracleState :=
  match execute_update_whitelist_bots st bots_to_whitelist bots_to_dewhitelist with
  | Except.ok st' => st'
  | Except.error _ => st

theorem foldl_updStr_mem (v : Bool) (l : List String) (w : String → Bool) (a : String) :
    (l.foldl (fun w b => updStr w b v) w) a = if a ∈ l then v else w a := by
  induction l generalizing w with
  | nil => simp
  | cons b t ih =>
    simp only [List.foldl_cons, ih, updStr, List.mem_cons]
    by_cases hab : a = b <;> by_cases hat : a ∈ t <;> simp [hab, hat]

/-- Test fixture for C9: state with an empty whitelist. -/
def c9State : OracleState :=
  { config := { min_round := 10, incentive_amount := 1000000, incentive_denom := "unois" }
    beacons := fun _ => none
    bots := fun _ => none
    whitelist := fun _ => false
    submissions := fun _ _ => none
    submissions_order := fun _ => []
    unprocessed_jobs := fun _ => []
    processed_jobs := fun _ => 0 }

/-- Claim C9 as stated is false: `UpdateWhitelistBots` is not admin-only.  The
oracle `Config` holds no admin address and the dispatch discards the caller,
so the caller `mallory` (not any configured admin) successfully whitelists
`alice`: the call returns ok, no unauthorized-caller error is raised, and the
whitelist changes. -/
theorem C9_counterexample_no_admin_check :
    exceptIsOk (executeUpdateWhitelistWithCaller c9State "mallory" ["alice"] []) = true ∧
    (applyUpdateWhitelist c9State ["alice"] []).whitelist "alice" = true ∧
    c9State.whitelist "alice" = false := by
  refine ⟨rfl, ?_, rfl⟩
  simp [applyUpdateWhitelist, execute_update_whitelist_bots, updStr]

/-- Claim C9, amended: `UpdateWhitelistBots` is not access-controlled — for
every caller the call succeeds, dewhitelists the first list, whitelists the
second (additions win over removals for an address in both lists), and touches
no other contract state. -/
theorem C9_whitelist_update_unrestricted (st : OracleState) (caller : String)
    (adds dels : List String) :
    exceptIsOk (executeUpdateWhitelistWithCaller st caller adds dels) = true ∧
    (∀ a : String, (applyUpdateWhitelist st adds dels).whitelist a =
      (if a ∈ adds then true else if a ∈ dels then false else st.whitelist a)) ∧
    (applyUpdateWhitelist st adds dels).beacons = st.beacons ∧
    (applyUpdateWhitelist st adds dels).bots = st.bots ∧
    (applyUpdateWhitelist st adds dels).submissions = st.submissions ∧
    (applyUpdateWhitelist st adds dels).submissions_order = st.submissions_order ∧
    (applyUpdateWhitelist st adds dels).unprocessed_jobs = st.unprocessed_jobs ∧
    (applyUpdateWhitelist st adds dels).processed_jobs = st.processed_jobs ∧
    (applyUpdateWhitelist st adds dels).config = st.config := by
  refine ⟨rfl, ?_, rfl, rfl, rfl, rfl, rfl, rfl, rfl⟩
  intro a
  simp only [applyUpdateWhitelist, execute_update_whitelist_bots,
    foldl_updStr_mem]

/-- Modelled from the spec: `validate_moniker` lives in `crate::bots`, which is
not under `src/`.  The spec only says a malformed moniker is a validation
error; modelled as non-emptiness plus a length bound. -/
def validate_moniker (moniker : String) : Bool :=
  !moniker.isEmpty && moniker.length ≤ 64

/-- Embedding of `execute_register_bot` from `contract.rs`: validates the
moniker; an existing bot record keeps its `rounds_added` and only the moniker
is replaced, a fresh registration starts with `rounds_added = 0`. -/
def execute_register_bot (st : OracleState) (sender : String) (moniker : String) :
    Except ContractError OracleState :=
  if !validate_moniker moniker then
    Except.error ContractError.invalidMoniker
  else
    let bot : Bot := match st.bots sender with
      | some bot => { bot with moniker := moniker }
      | none => { moniker := moniker, rounds_added := 0 }
    Except.ok { st with bots := updStr st.bots sender (some bot) }

/-- Post-state of a `RegisterBot` call under transactional call semantics. -/
def applyRegisterBot (st : OracleState) (sender : String) (moniker : String) :
    OracleState :=
  match execute_register_bot st sender moniker with
  | Except.ok st' => st'
  | Except.error _ => st

/-- Test fixture for C10: `bot1` is registered with moniker `Old` and
`rounds_added = 5`. -/
def c10State : OracleState :=
  { config := { min_round := 10, incentive_amount := 1000000, incentive_denom := "unois" }
    beacons := fun _ => none
    bots := fun a => if a = "bot1" then some { moniker := "Old", rounds_added := 5 } else none
    whitelist := fun _ => false
    submissions := fun _ _ => none
    submissions_order := fun _ => []
    unprocessed_jobs := fun _ => []
    processed_jobs := fun _ => 0 }

/-- Claim C10: re-registering an already-registered bot with a valid moniker
succeeds and replaces only the stored moniker, preserving `rounds_added`; a
previously unregistered address gets a record with `rounds_added = 0`; in both
cases no other bot record and no other contract state changes. -/
theorem C10_register_bot_updates_moniker_only (st : OracleState)
    (sender moniker : String) (hval : validate_moniker moniker = true) :
    exceptIsOk (execute_register_bot st sender moniker) = true ∧
    (∀ b : Bot, st.bots sender = some b →
      (applyRegisterBot st sender moniker).bots sender =
        some { moniker := moniker, rounds_added := b.rounds_added }) ∧
    (st.bots sender = none →
      (applyRegisterBot st sender moniker).bots sender =
        some { moniker := moniker, rounds_added := 0 }) ∧
    (∀ a : String, a ≠ sender →
      (applyRegisterBot st sender moniker).bots a = st.bots a) ∧
    (applyRegisterBot st sender moniker).beacons = st.beacons ∧
    (applyRegisterBot st sender moniker).whitelist = st.whitelist ∧
    (applyRegisterBot st sender moniker).submissions = st.submissions ∧
    (applyRegisterBot st sender moniker).submissions_order = st.submissions_order ∧
    (applyRegisterBot st sender moniker).unprocessed_jobs = st.unprocessed_jobs ∧
    (applyRegisterBot st sender moniker).processed_jobs = st.processed_jobs ∧
    (applyRegisterBot st sender moniker).config = st.config := by
  refine ⟨?_, ?_, ?_, ?_, ?_, ?_, ?_, ?_, ?_, ?_, ?_⟩
  · simp [exceptIsOk, execute_register_bot, hval]
  · intro b hb
    simp [applyRegisterBot, execute_register_bot, hval, hb, updStr]
  · intro hb
    simp [applyRegisterBot, execute_register_bot, hval, hb, updStr]
  · intro a ha
    simp [applyRegisterBot, execute_register_bot, hval, updStr, ha]
  all_goals simp [applyRegisterBot, execute_register_bot, hval]

/-- Witness for C10: applied at the fixture where `bot1` is registered with
moniker `Old` and `rounds_added = 5`; re-registration with moniker `New`
keeps the counter. -/
theorem C10_register_bot_updates_moniker_only_witness :
    validate_moniker "New" = true ∧
    c10State.bots "bot1" = some { moniker := "Old", rounds_added := 5 } ∧
    (applyRegisterBot c10State "bot1" "New").bots "bot1" =
      some { moniker := "New", rounds_added := 5 } :=
  ⟨by decide, rfl,
    (C10_register_bot_updates_moniker_only c10State "bot1" "New" (by decide)).2.1
      { moniker := "Old", rounds_added := 5 } rfl⟩

end BurnToken
